import Mathlib

/-!
Verification of the appointment slot scheduler of the AL-SHIFA dental backend.

Times are modelled as `Int` minutes (minutes since midnight of the target
date; busy intervals may extend beyond the day, which `Int` accommodates).
The embedding follows `backend/services/doctor_schedule_ai.py`
(`SchedulerService.get_available_slots`), `backend/main.py`
(`create_appointment`) and `backend/agents/appointment_agent.py`
(`AppointmentAgent._handle_booking`, the slot-id decode).
-/

namespace PDD

/-- A row of the `appointments` table, projected to the fields the scheduler
reads: `start_time`, `end_time`, `status`. -/
structure Appt where
  start_time : Int
  end_time : Int
  status : String
deriving DecidableEq

/-- The doctor schedule configuration read by `get_available_slots`:
`work_start_time`/`work_end_time` are the results of
`datetime.strptime(..., "%H:%M")` on the stored strings (`none` = the parse
raised `ValueError`), `slot_duration`/`break_duration` are the stored minute
counts. -/
structure DoctorCfg where
  work_start_time : Option Int
  work_end_time : Option Int
  slot_duration : Int
  break_duration : Int
deriving DecidableEq

/-- Lines 85-91 of `doctor_schedule_ai.py`: the `try/except ValueError`
around the two `strptime` calls.  If either stored time string fails to
parse, both fall back to 09:00 (540) and 17:00 (1020). -/
def workWindow (d : DoctorCfg) : Int × Int :=
  match d.work_start_time, d.work_end_time with
  | some s, some e => (s, e)
  | _, _ => (540, 1020)

/-- The ASCII digit character for `n < 10` (as produced by `strftime`). -/
def digitChar (n : Nat) : Char := Char.ofNat (48 + n)

/-- Two-digit zero padding, as `strftime` emits for `%H` and `%M`. -/
def pad2 (n : Nat) : String := String.mk [digitChar (n / 10), digitChar (n % 10)]

/-- `current_time.strftime("%H%M")` for a time `t` in minutes. -/
def hhmm (t : Int) : String := pad2 (t.toNat / 60 % 24) ++ pad2 (t.toNat % 60)

/-- Line 130 of `doctor_schedule_ai.py`:
`f"{doctor.id}_{current_time.strftime('%H%M')}"`. -/
def encodeSlotId (doctorId : String) (t : Int) : String :=
  doctorId ++ "_" ++ hhmm t

/-- One emitted slot dict (lines 129-135), with `start`/`end` kept as minute
counts (`stop` stands for the Python dict key `end`, a Lean keyword). -/
structure Slot where
  slot_id : String
  start : Int
  stop : Int
  doctor_id : String
deriving DecidableEq

/-- Lines 119-124: the conflict scan over busy intervals using the half-open
overlap test `current_time < busy_end and slot_end > busy_start`. -/
def hasConflict (cur se : Int) (busy : List (Int × Int)) : Bool :=
  busy.any (fun b => decide (cur < b.2) && decide (se > b.1))

/-- Lines 99-108: the busy-interval fetch.  The query keeps appointments of
the doctor with `start_time >= work_start`, `start_time < work_end + 1 day`
(1440 minutes) and `status != "cancelled"`, and projects them to
`(start_time, end_time)` pairs. -/
def busyIntervals (ws we : Int) (appts : List Appt) : List (Int × Int) :=
  (appts.filter (fun a =>
      decide (ws ≤ a.start_time) && decide (a.start_time < we + 1440) &&
      decide (a.status ≠ "cancelled"))).map
    (fun a => (a.start_time, a.end_time))

/-- Lines 111-140: the slot-generation `while` loop, made total with a fuel
argument.  `none` means the fuel ran out while the loop guard
`current_time + slot_delta <= work_end` still held (the Python loop is still
running); `some l` means the loop exited normally with emitted slots `l`. -/
def genAux (we sd bk : Int) (did : String) (busy : List (Int × Int)) :
    Nat → Int → Option (List Slot)
  | fuel, cur =>
    if cur + sd ≤ we then
      match fuel with
      | 0 => none
      | Nat.succ f =>
        (genAux we sd bk did busy f (cur + sd + bk)).map (fun rest =>
          if hasConflict cur (cur + sd) busy then rest
          else { slot_id := encodeSlotId did cur, start := cur,
                 stop := cur + sd, doctor_id := did } :: rest)
    else some []

/-- The Python loop at `doctor_schedule_ai.py` lines 111-140 terminates from
cursor `cur`: some fuel suffices for `genAux` to reach the loop exit. -/
def loopTerminates (we sd bk : Int) (busy : List (Int × Int)) (cur : Int) : Prop :=
  ∃ fuel, (genAux we sd bk "" busy fuel cur).isSome

/-- `SchedulerService.get_available_slots`, lines 84-140, for one doctor:
parse the window with fallback, filter busy intervals, run the generation
loop.  The fuel bound covers every terminating run of the Python loop (any
positive cursor step); when the Python loop would not terminate the model
returns `[]`. -/
def get_available_slots (doctorId : String) (d : DoctorCfg) (appts : List Appt) :
    List Slot :=
  (genAux (workWindow d).2 d.slot_duration d.break_duration doctorId
      (busyIntervals (workWindow d).1 (workWindow d).2 appts)
      (((workWindow d).2 - d.slot_duration - (workWindow d).1).toNat +
        ((workWindow d).2 - (workWindow d).1).toNat + 1)
      (workWindow d).1).getD []

/-- Outcome of the booking endpoint `create_appointment` in `main.py`:
the 400 "Cannot book in the past", the 400 conflict (with the
`status_msg` of line 178), or the inserted appointment row. -/
inductive BookingResult where
  | pastTime
  | conflict (msg : String)
  | booked (start_time end_time : Int) (status : String)
deriving DecidableEq

/-- Line 172 of `main.py`: `status.in_(["confirmed", "blocked", "completed"])`. -/
def blockingStatuses : List String := ["confirmed", "blocked", "completed"]

set_option linter.unusedVariables false in
/-- `create_appointment`, `main.py` lines 164-191, after date/time parsing:
reject past starts, compute `end_dt = start_dt + 30 minutes`, scan for the
first overlapping appointment with a blocking status, otherwise insert a
`confirmed` appointment.  The doctor configuration `d` is passed but, as in
the code, never consulted for the duration. -/
def create_appointment (d : DoctorCfg) (now start_dt : Int) (appts : List Appt) :
    BookingResult :=
  if start_dt < now then .pastTime
  else
    match appts.find? (fun a =>
        decide (a.status ∈ blockingStatuses) &&
        decide (a.start_time < start_dt + 30) &&
        decide (a.end_time > start_dt)) with
    | some a => .conflict (if a.status = "blocked" then "unavailable" else "already booked")
    | none => .booked start_dt (start_dt + 30) "confirmed"

/-- `data.slot_id.rsplit('_', 1)` on the underlying character list: split at
the last `'_'`, `none` when the string has no `'_'` (the Python unpacking
then raises, caught by the handler's `except`). -/
def rsplitAux : List Char → Option (List Char × List Char)
  | [] => none
  | c :: rest =>
    match rsplitAux rest with
    | some (l, r) => some (c :: l, r)
    | none => if c = '_' then some ([], rest) else none

/-- `strptime`'s `%H` directive: the regex `2[0-3]|[0-1]\d|\d`, alternatives
tried in order, returning the parsed hour and the unconsumed characters. -/
def parseH : List Char → Option (Nat × List Char)
  | c1 :: c2 :: rest =>
    if c1 = '2' ∧ '0' ≤ c2 ∧ c2 ≤ '3' then some (20 + (c2.toNat - 48), rest)
    else if (c1 = '0' ∨ c1 = '1') ∧ c2.isDigit then
      some (10 * (c1.toNat - 48) + (c2.toNat - 48), rest)
    else if c1.isDigit then some (c1.toNat - 48, c2 :: rest)
    else none
  | [c1] => if c1.isDigit then some (c1.toNat - 48, []) else none
  | [] => none

/-- `strptime`'s `%M` directive: the regex `[0-5]\d|\d`. -/
def parseM : List Char → Option (Nat × List Char)
  | c1 :: c2 :: rest =>
    if ('0' ≤ c1 ∧ c1 ≤ '5') ∧ c2.isDigit then
      some (10 * (c1.toNat - 48) + (c2.toNat - 48), rest)
    else if c1.isDigit then some (c1.toNat - 48, c2 :: rest)
    else none
  | [c1] => if c1.isDigit then some (c1.toNat - 48, []) else none
  | [] => none

/-- `datetime.strptime(time_part, "%H%M")` restricted to the time part:
`%H` then `%M`, and the whole string must be consumed ("unconverted data
remains" otherwise). -/
def parseHHMM (cs : List Char) : Option (Nat × Nat) :=
  match parseH cs with
  | none => none
  | some (h, r) =>
    match parseM r with
    | none => none
    | some (m, r2) => if r2 = [] then some (h, m) else none

/-- The slot-id decode of `AppointmentAgent._handle_booking` (lines 131-145):
`rsplit('_', 1)` then `strptime("... %H%M")`; `none` models the `except`
branch that answers "Invalid slot identifier". -/
def decodeSlotId (s : String) : Option (String × Nat × Nat) :=
  match rsplitAux s.data with
  | none => none
  | some (l, r) =>
    match parseHHMM r with
    | none => none
    | some (h, m) => some (String.mk l, h, m)

/-! ## Unfolding and invariant lemmas for the generation loop -/

lemma genAux_zero (we sd bk : Int) (did : String) (busy : List (Int × Int)) (cur : Int) :
    genAux we sd bk did busy 0 cur =
      if cur + sd ≤ we then none else some [] := rfl

lemma genAux_succ (we sd bk : Int) (did : String) (busy : List (Int × Int)) (f : Nat) (cur : Int) :
    genAux we sd bk did busy (f + 1) cur =
      if cur + sd ≤ we then
        (genAux we sd bk did busy f (cur + sd + bk)).map (fun rest =>
          if hasConflict cur (cur + sd) busy then rest
          else { slot_id := encodeSlotId did cur, start := cur,
                 stop := cur + sd, doctor_id := did } :: rest)
      else some [] := rfl

lemma genAux_exit (we sd bk : Int) (did : String) (busy : List (Int × Int))
    (fuel : Nat) (cur : Int) (h : ¬ cur + sd ≤ we) :
    genAux we sd bk did busy fuel cur = some [] := by
  cases fuel with
  | zero => rw [genAux_zero, if_neg h]
  | succ f => rw [genAux_succ, if_neg h]

lemma genAux_mem_inv (we sd bk : Int) (did : String) (busy : List (Int × Int)) :
    ∀ (fuel : Nat) (cur : Int) (l : List Slot),
      genAux we sd bk did busy fuel cur = some l →
      ∀ s ∈ l, (∃ k : Nat, s.start = cur + (k : Int) * (sd + bk)) ∧
        s.stop = s.start + sd ∧ s.stop ≤ we ∧
        hasConflict s.start s.stop busy = false ∧
        s.slot_id = encodeSlotId did s.start ∧ s.doctor_id = did := by
  intro fuel
  induction fuel with
  | zero =>
    intro cur l h s hs
    by_cases hc : cur + sd ≤ we
    · rw [genAux_zero, if_pos hc] at h
      exact absurd h (by simp)
    · rw [genAux_zero, if_neg hc] at h
      injection h with h
      subst h
      cases hs
  | succ f ih =>
    intro cur l h s hs
    by_cases hc : cur + sd ≤ we
    · rw [genAux_succ, if_pos hc] at h
      cases hr : genAux we sd bk did busy f (cur + sd + bk) with
      | none => rw [hr] at h; exact absurd h (by simp)
      | some rest =>
        rw [hr, Option.map_some'] at h
        injection h with h
        subst h
        by_cases hcf : hasConflict cur (cur + sd) busy = true
        · rw [if_pos hcf] at hs
          obtain ⟨⟨k, hk⟩, h2, h3, h4, h5, h6⟩ := ih (cur + sd + bk) rest hr s hs
          refine ⟨⟨k + 1, ?_⟩, h2, h3, h4, h5, h6⟩
          rw [hk]; push_cast; ring
        · rw [if_neg hcf] at hs
          cases hs with
          | head =>
            refine ⟨⟨0, by simp⟩, rfl, hc, ?_, rfl, rfl⟩
            simpa using hcf
          | tail _ hs' =>
            obtain ⟨⟨k, hk⟩, h2, h3, h4, h5, h6⟩ := ih (cur + sd + bk) rest hr s hs'
            refine ⟨⟨k + 1, ?_⟩, h2, h3, h4, h5, h6⟩
            rw [hk]; push_cast; ring
    · rw [genAux_succ, if_neg hc] at h
      injection h with h
      subst h
      cases hs

lemma mem_getD_nil {α : Type} {o : Option (List α)} {s : α}
    (h : s ∈ o.getD []) : ∃ l, o = some l ∧ s ∈ l := by
  cases o with
  | none => simp at h
  | some l => exact ⟨l, rfl, h⟩

lemma slots_mem_inv (doctorId : String) (d : DoctorCfg) (appts : List Appt) :
    ∀ s ∈ get_available_slots doctorId d appts,
      (∃ k : Nat, s.start = (workWindow d).1 +
          (k : Int) * (d.slot_duration + d.break_duration)) ∧
      s.stop = s.start + d.slot_duration ∧ s.stop ≤ (workWindow d).2 ∧
      hasConflict s.start s.stop
        (busyIntervals (workWindow d).1 (workWindow d).2 appts) = false ∧
      s.slot_id = encodeSlotId doctorId s.start ∧ s.doctor_id = doctorId := by
  intro s hs
  unfold get_available_slots at hs
  obtain ⟨l, hl, hs'⟩ := mem_getD_nil hs
  exact genAux_mem_inv _ _ _ _ _ _ _ _ hl s hs'

/-! ## Termination of the generation loop -/

lemma genAux_zero_step_stuck : ∀ fuel : Nat, genAux 1020 0 0 "" [] fuel 540 = none := by
  intro fuel
  induction fuel with
  | zero =>
    rw [genAux_zero, if_pos (by norm_num)]
  | succ f ih =>
    rw [genAux_succ, if_pos (by norm_num)]
    rw [show (540 : Int) + 0 + 0 = 540 by norm_num, ih]
    rfl

lemma genAux_isSome_of_pos_step (we sd bk : Int) (did : String)
    (busy : List (Int × Int)) (hstep : 1 ≤ sd + bk) :
    ∀ (fuel : Nat) (cur : Int), (we - cur - sd + 1).toNat ≤ fuel →
      (genAux we sd bk did busy fuel cur).isSome := by
  intro fuel
  induction fuel with
  | zero =>
    intro cur hf
    have hc : ¬ cur + sd ≤ we := by omega
    rw [genAux_exit _ _ _ _ _ _ _ hc]
    rfl
  | succ f ih =>
    intro cur hf
    by_cases hc : cur + sd ≤ we
    · rw [genAux_succ, if_pos hc, Option.isSome_map']
      exact ih (cur + sd + bk) (by omega)
    · rw [genAux_exit _ _ _ _ _ _ _ hc]
      rfl

/-! ## Codec lemmas -/

lemma rsplitAux_eq_none {cs : List Char} (h : '_' ∉ cs) : rsplitAux cs = none := by
  induction cs with
  | nil => rfl
  | cons c rest ih =>
    have h1 : '_' ∉ rest := fun hm => h (List.mem_cons_of_mem _ hm)
    have h2 : ¬ c = '_' := fun hc => h (hc ▸ List.mem_cons_self _ _)
    rw [rsplitAux, ih h1]
    simp [h2]

lemma rsplitAux_append (l r : List Char) (h : '_' ∉ r) :
    rsplitAux (l ++ '_' :: r) = some (l, r) := by
  induction l with
  | nil =>
    rw [List.nil_append, rsplitAux, rsplitAux_eq_none h]
    simp
  | cons c cs ih =>
    rw [List.cons_append, rsplitAux, ih]

lemma pad2_parse : ∀ h < 24, ∀ m < 60,
    parseHHMM (pad2 h ++ pad2 m).data = some (h, m) ∧
    '_' ∉ (pad2 h ++ pad2 m).data := by decide

/-! ## Claim theorems -/

/-- C1: the no-overlap claim fails on the code as written.  With the working
window 09:00-11:00 (540-660), 30-minute slots and a single `confirmed`
appointment 08:30-09:30 (510-570), the busy-interval fetch of
`get_available_slots` drops the appointment (its `start_time` is before
`work_start`), so the emitted slot 09:00-09:30 overlaps, under the half-open
predicate, a supplied busy interval whose status is not `cancelled`. -/
theorem C1_emitted_slot_overlaps_prewindow_busy :
    (∃ s ∈ get_available_slots "1" ⟨some 540, some 660, 30, 0⟩
        [⟨510, 570, "confirmed"⟩], s.start < 570 ∧ 510 < s.stop) ∧
    ("confirmed" : String) ≠ "cancelled" := by decide

/-- C2 counterexample: a booking proposal that is not in the past and whose
interval [100,130) overlaps an existing `in_progress` appointment [90,140) is
accepted, not rejected with a conflict, because `create_appointment` only
treats `confirmed`, `blocked` and `completed` as blocking; this refutes the
claim that every non-`cancelled` status blocks. -/
theorem C2_in_progress_does_not_block :
    create_appointment ⟨some 540, some 1020, 30, 0⟩ 0 100 [⟨90, 140, "in_progress"⟩] =
      .booked 100 130 "confirmed" ∧
    ("in_progress" : String) ≠ "cancelled" ∧
    (90 : Int) < 100 + 30 ∧ (140 : Int) > 100 ∧ ¬ (100 : Int) < 0 := by decide

/-- C2 amended: for a proposed booking that is not in the past,
`create_appointment` rejects with a conflict if and only if the proposed
interval [start, start+30) overlaps, under the half-open predicate, an
existing appointment whose status is among `confirmed`, `blocked`,
`completed`; and on rejection the message is "unavailable" when the
offending appointment is `blocked` and "already booked" otherwise. -/
theorem C2_conflict_iff_blocking_status :
    ∀ (d : DoctorCfg) (now start_dt : Int) (appts : List Appt),
      ¬ start_dt < now →
      ((∃ msg, create_appointment d now start_dt appts = .conflict msg) ↔
        ∃ a ∈ appts, a.status ∈ blockingStatuses ∧
          a.start_time < start_dt + 30 ∧ a.end_time > start_dt) ∧
      (∀ msg, create_appointment d now start_dt appts = .conflict msg →
        ∃ a ∈ appts, a.status ∈ blockingStatuses ∧
          a.start_time < start_dt + 30 ∧ a.end_time > start_dt ∧
          msg = if a.status = "blocked" then "unavailable" else "already booked") := by
  intro d now start_dt appts hpast
  unfold create_appointment
  rw [if_neg hpast]
  cases hfind : appts.find? (fun a =>
      decide (a.status ∈ blockingStatuses) &&
      decide (a.start_time < start_dt + 30) &&
      decide (a.end_time > start_dt)) with
  | none =>
    simp only [hfind]
    refine ⟨⟨?_, ?_⟩, ?_⟩
    · rintro ⟨msg, h⟩
      cases h
    · rintro ⟨a, ha, h1, h2, h3⟩
      have hnone := List.find?_eq_none.mp hfind a ha
      simp only [Bool.and_eq_true, decide_eq_true_eq] at hnone
      exact absurd ⟨⟨h1, h2⟩, h3⟩ hnone
    · intro msg h
      cases h
  | some a =>
    simp only [hfind]
    have hmem := List.mem_of_find?_eq_some hfind
    have hp := List.find?_some hfind
    simp only [Bool.and_eq_true, decide_eq_true_eq] at hp
    obtain ⟨⟨h1, h2⟩, h3⟩ := hp
    refine ⟨⟨fun _ => ⟨a, hmem, h1, h2, h3⟩, fun _ => ⟨_, rfl⟩⟩, ?_⟩
    intro msg h
    injection h with h
    exact ⟨a, hmem, h1, h2, h3, h.symm⟩

/-- C2 witness: the amended theorem applied at a concrete input — a proposal
overlapping a `blocked` interval is rejected with the "unavailable" reason. -/
theorem C2_conflict_iff_blocking_status_witness :
    (∃ msg, create_appointment ⟨some 540, some 1020, 30, 0⟩ 0 100
        [⟨90, 140, "blocked"⟩] = .conflict msg) ∧
    create_appointment ⟨some 540, some 1020, 30, 0⟩ 0 100 [⟨90, 140, "blocked"⟩] =
      .conflict "unavailable" := by
  have h := C2_conflict_iff_blocking_status ⟨some 540, some 1020, 30, 0⟩ 0 100
    [⟨90, 140, "blocked"⟩] (by decide)
  refine ⟨h.1.mpr ⟨⟨90, 140, "blocked"⟩, by decide, by decide, by decide, by decide⟩, ?_⟩
  obtain ⟨msg, hmsg⟩ := h.1.mpr ⟨⟨90, 140, "blocked"⟩, by decide, by decide, by decide, by decide⟩
  obtain ⟨a, ha, _, _, _, hm⟩ := h.2 msg hmsg
  have : a = ⟨90, 140, "blocked"⟩ := by
    cases ha with
    | head => rfl
    | tail _ h' => cases h'
  subst this
  simpa [hm] using hmsg

/-- C3: every emitted slot starts at `work_start` plus a non-negative
multiple of `slot_duration + break_duration` and ends `slot_duration` later;
consequently two slots at adjacent cadence indices are separated by exactly
`break_duration` minutes. -/
theorem C3_fixed_cadence :
    ∀ (doctorId : String) (d : DoctorCfg) (appts : List Appt),
      (∀ s ∈ get_available_slots doctorId d appts,
        (∃ k : Nat, s.start = (workWindow d).1 +
            (k : Int) * (d.slot_duration + d.break_duration)) ∧
        s.stop = s.start + d.slot_duration) ∧
      (∀ s1 ∈ get_available_slots doctorId d appts,
        ∀ s2 ∈ get_available_slots doctorId d appts, ∀ k : Nat,
        s1.start = (workWindow d).1 + (k : Int) * (d.slot_duration + d.break_duration) →
        s2.start = (workWindow d).1 + ((k : Int) + 1) * (d.slot_duration + d.break_duration) →
        s2.start - s1.stop = d.break_duration) := by
  intro did d appts
  constructor
  · intro s hs
    obtain ⟨hk, h2, _⟩ := slots_mem_inv did d appts s hs
    exact ⟨hk, h2⟩
  · intro s1 hs1 s2 hs2 k hk1 hk2
    obtain ⟨_, h2, _⟩ := slots_mem_inv did d appts s1 hs1
    rw [hk2, h2, hk1]
    ring

/-- C3 witness: the cadence theorem applied to the first two slots of the
09:00-11:00 / 30-minute / no-break configuration. -/
theorem C3_fixed_cadence_witness :
    (⟨"1_0930", 570, 600, "1"⟩ : Slot).start - (⟨"1_0900", 540, 570, "1"⟩ : Slot).stop =
      (⟨some 540, some 660, 30, 0⟩ : DoctorCfg).break_duration :=
  (C3_fixed_cadence "1" ⟨some 540, some 660, 30, 0⟩ []).2
    ⟨"1_0900", 540, 570, "1"⟩ (by decide) ⟨"1_0930", 570, 600, "1"⟩ (by decide)
    0 (by decide) (by decide)

/-- C4: the 09:00-11:00, 30-minute, no-break configuration with no busy
intervals yields exactly the four slots 09:00-09:30 through 10:30-11:00 (the
last ending exactly at `work_end`), and in general every emitted slot ends
no later than `work_end`. -/
theorem C4_boundary_exactness :
    get_available_slots "1" ⟨some 540, some 660, 30, 0⟩ [] =
      [⟨"1_0900", 540, 570, "1"⟩, ⟨"1_0930", 570, 600, "1"⟩,
       ⟨"1_1000", 600, 630, "1"⟩, ⟨"1_1030", 630, 660, "1"⟩] ∧
    (∀ (doctorId : String) (d : DoctorCfg) (appts : List Appt),
      ∀ s ∈ get_available_slots doctorId d appts, s.stop ≤ (workWindow d).2) := by
  refine ⟨by decide, ?_⟩
  intro did d appts s hs
  exact (slots_mem_inv did d appts s hs).2.2.1

/-- C4 witness: the boundary bound applied to the slot that ends exactly at
`work_end`. -/
theorem C4_boundary_exactness_witness :
    (⟨"1_1030", 630, 660, "1"⟩ : Slot).stop ≤
      (workWindow ⟨some 540, some 660, 30, 0⟩).2 :=
  C4_boundary_exactness.2 "1" ⟨some 540, some 660, 30, 0⟩ []
    ⟨"1_1030", 630, 660, "1"⟩ (by decide)

/-- C5: a proposed booking whose start is strictly before the current time
is rejected with the past-time error, before and independently of the
conflict scan, for every busy-interval set; no appointment row results. -/
theorem C5_past_time_rejected :
    ∀ (d : DoctorCfg) (now start_dt : Int) (appts : List Appt),
      start_dt < now → create_appointment d now start_dt appts = .pastTime := by
  intro d now start_dt appts h
  unfold create_appointment
  rw [if_pos h]

/-- C5 witness: booking yesterday (start 100 with now 200) is rejected even
though the busy set also conflicts. -/
theorem C5_past_time_rejected_witness :
    create_appointment ⟨some 540, some 1020, 30, 0⟩ 200 100
      [⟨90, 140, "confirmed"⟩] = .pastTime :=
  C5_past_time_rejected ⟨some 540, some 1020, 30, 0⟩ 200 100
    [⟨90, 140, "confirmed"⟩] (by decide)

/-- C6: a `cancelled` busy interval is transparent — removing it from the
appointment list (anywhere in the list) leaves the generated slots
unchanged, for every configuration and date. -/
theorem C6_cancelled_transparency :
    ∀ (doctorId : String) (d : DoctorCfg) (l1 l2 : List Appt) (c : Appt),
      c.status = "cancelled" →
      get_available_slots doctorId d (l1 ++ c :: l2) =
        get_available_slots doctorId d (l1 ++ l2) := by
  intro did d l1 l2 c hc
  unfold get_available_slots
  have hb : busyIntervals (workWindow d).1 (workWindow d).2 (l1 ++ c :: l2) =
      busyIntervals (workWindow d).1 (workWindow d).2 (l1 ++ l2) := by
    unfold busyIntervals
    rw [List.filter_append, List.filter_append, List.filter_cons]
    simp [hc]
  rw [hb]

/-- C6 witness: cancelling the 09:30-10:00 appointment re-offers the slot it
had withheld. -/
theorem C6_cancelled_transparency_witness :
    get_available_slots "1" ⟨some 540, some 660, 30, 0⟩
        ([] ++ (⟨570, 600, "cancelled"⟩ : Appt) :: []) =
      get_available_slots "1" ⟨some 540, some 660, 30, 0⟩ ([] ++ []) :=
  C6_cancelled_transparency "1" ⟨some 540, some 660, 30, 0⟩ [] []
    ⟨570, 600, "cancelled"⟩ rfl

/-- C7 counterexample: a parsable but inverted window (10:00-09:00) is not
corrected to the default window — generation returns no slots instead of
the default-window slots; and with an unparsable window the fallback keeps
the doctor's configured 60-minute slot duration (first slot ends at 600 =
10:00), not the claimed 30-minute default (which would end at 570). -/
theorem C7_no_fallback_for_inverted_window :
    get_available_slots "1" ⟨some 600, some 540, 30, 0⟩ [] = [] ∧
    get_available_slots "1" ⟨some 540, some 1020, 30, 0⟩ [] ≠ [] ∧
    (get_available_slots "1" ⟨none, none, 60, 0⟩ []).head?.map Slot.stop = some 600 ∧
    (600 : Int) ≠ 570 := by decide

/-- C7 amended: when either configured time string is unparsable, generation
falls back to the default 09:00-17:00 window while keeping the doctor's
configured slot and break durations, and proceeds; when the window parses
but violates `work_end > work_start`, no fallback occurs and generation
returns the empty list (still without failing). -/
theorem C7_unparsable_fallback :
    ∀ (doctorId : String) (d : DoctorCfg) (appts : List Appt),
      ((d.work_start_time = none ∨ d.work_end_time = none) →
        get_available_slots doctorId d appts =
          get_available_slots doctorId
            ⟨some 540, some 1020, d.slot_duration, d.break_duration⟩ appts) ∧
      (∀ ws we, d.work_start_time = some ws → d.work_end_time = some we →
        we ≤ ws → 1 ≤ d.slot_duration →
        get_available_slots doctorId d appts = []) := by
  intro did d appts
  constructor
  · intro h
    have hw : workWindow d = (540, 1020) := by
      rcases h with h | h
      · unfold workWindow
        rw [h]
      · cases hws : d.work_start_time with
        | none =>
          unfold workWindow
          rw [hws]
        | some ws =>
          unfold workWindow
          rw [hws, h]
    unfold get_available_slots
    rw [hw]
    rfl
  · intro ws we hws hwe hle hsd
    have hw : workWindow d = (ws, we) := by
      unfold workWindow
      rw [hws, hwe]
    unfold get_available_slots
    rw [hw]
    rw [genAux_exit _ _ _ _ _ _ _ (by simp only; omega)]
    rfl

/-- C7 witness: the fallback equation applied to a doctor whose stored times
are unparsable, and the empty result applied to an inverted window. -/
theorem C7_unparsable_fallback_witness :
    get_available_slots "1" ⟨none, none, 30, 0⟩ [] =
      get_available_slots "1" ⟨some 540, some 1020, 30, 0⟩ [] ∧
    get_available_slots "1" ⟨some 600, some 540, 30, 10⟩ [] = [] :=
  ⟨(C7_unparsable_fallback "1" ⟨none, none, 30, 0⟩ []).1 (Or.inl rfl),
   (C7_unparsable_fallback "1" ⟨some 600, some 540, 30, 10⟩ []).2 600 540
     rfl rfl (by decide) (by decide)⟩

/-- C8 counterexample: with `slot_duration = 0` and `break_duration = 0`
(values the generator accepts without validation) and window 09:00-17:00,
the generation loop never exits — no amount of fuel reaches the loop exit —
so the claim that the loop terminates for every accepted configuration is
false. -/
theorem C8_zero_step_never_terminates : ¬ loopTerminates 1020 0 0 [] 540 := by
  rintro ⟨fuel, h⟩
  rw [genAux_zero_step_stuck fuel] at h
  simp at h

/-- C8 amended: the generation loop terminates from every cursor whenever
the cursor step `slot_duration + break_duration` is positive (in particular
for every configuration with a positive slot duration and non-negative
break, the spec's data-model range). -/
theorem C8_terminates_of_pos_step :
    ∀ (we sd bk : Int) (busy : List (Int × Int)) (cur : Int),
      1 ≤ sd + bk → loopTerminates we sd bk busy cur := by
  intro we sd bk busy cur h
  exact ⟨(we - cur - sd + 1).toNat,
    genAux_isSome_of_pos_step we sd bk "" busy h _ cur le_rfl⟩

/-- C8 witness: termination for the standard 30-minute no-break
configuration over the default window. -/
theorem C8_terminates_of_pos_step_witness : loopTerminates 1020 30 0 [] 540 :=
  C8_terminates_of_pos_step 1020 30 0 [] 540 (by decide)

/-- C9: the slot-identifier codec round-trips — decoding the encoding of any
doctor id and start time returns the doctor id and the start's hour and
minute — and decoding a malformed identifier fails (yielding the
user-facing invalid-identifier answer rather than a crash). -/
theorem C9_slot_id_roundtrip :
    (∀ (doctorId : String) (t : Int),
      decodeSlotId (encodeSlotId doctorId t) =
        some (doctorId, t.toNat / 60 % 24, t.toNat % 60)) ∧
    decodeSlotId "garbage" = none := by
  constructor
  · intro did t
    obtain ⟨ldid⟩ := did
    obtain ⟨hp, hni⟩ := pad2_parse (t.toNat / 60 % 24) (Nat.mod_lt _ (by norm_num))
      (t.toNat % 60) (Nat.mod_lt _ (by norm_num))
    have hdata : (encodeSlotId (String.mk ldid) t).data =
        ldid ++ '_' :: (pad2 (t.toNat / 60 % 24) ++ pad2 (t.toNat % 60)).data := by
      show (String.mk ldid ++ "_" ++ hhmm t).data = _
      rw [String.data_append, String.data_append, List.append_assoc]
      rfl
    unfold decodeSlotId
    rw [hdata, rsplitAux_append _ _ hni]
    simp only [hp]
  · decide

/-- C10: whenever the booking endpoint accepts a proposal, the persisted
appointment runs from the proposed start to exactly start + 30 minutes,
for every doctor configuration (the configured slot duration is never
consulted). -/
theorem C10_booked_end_is_start_plus_thirty :
    ∀ (d : DoctorCfg) (now start_dt : Int) (appts : List Appt)
      (s e : Int) (st : String),
      create_appointment d now start_dt appts = .booked s e st →
      e = s + 30 ∧ s = start_dt := by
  intro d now start_dt appts s e st h
  unfold create_appointment at h
  split at h
  · cases h
  · split at h
    · cases h
    · injection h with h1 h2 h3
      exact ⟨by omega, by omega⟩

/-- C10 witness: a doctor configured for 45-minute slots still yields a
30-minute appointment. -/
theorem C10_booked_end_is_start_plus_thirty_witness :
    (130 : Int) = 100 + 30 ∧ (100 : Int) = 100 :=
  C10_booked_end_is_start_plus_thirty ⟨some 540, some 1020, 45, 0⟩ 0 100 []
    100 130 "confirmed" (by decide)

end PDD
